import Mathlib

/-!
Shallow embedding of the phone-shop core (cart, pending-intent relay, order
assembly) for checking the specification's claims.

Sources embedded:
  * src/cart/views.py      — cart_add, complete_pending_add, order_create
  * src/accounts/views.py  — CustomLoginView.get_success_url
  * src/shop/views.py      — order_history, order_detail
  * src/shop/utils.py      — send_order_confirmation_email
The Cart class (cart/cart.py) and the Product/Order/OrderItem models
(shop/models.py) are not among the staged source files; those definitions are
modelled from the spec (sections 3, 4.1 and 4.4) and corroborated by the
staged tests (src/cart/tests.py, src/shop/tests.py). Each such definition is
marked "Modelled from the spec".

Conventions: Django model rows become Lean structures; the database becomes an
explicit `Db` value threaded through the operations; the session becomes a
`Session` value (cart mapping plus optional pending intent); fixed-point
decimal prices become rationals; request handlers become pure functions from
the relevant state to the new state paired with an outcome value.
-/

namespace PhoneShop

/-- Prices are fixed-point decimals in the source; embedded as rationals. -/
abbrev Price := ℚ

/-- Product row (shop.models.Product): id, name, price, stock, available.
Modelled from the spec: shop/models.py is not among the staged files; fields
per spec section 3 ("Product — id, name, price, stock (non-negative integer),
available"). -/
structure Product where
  id : Nat
  name : String
  price : Price
  stock : Nat
  available : Bool
deriving Repr, DecidableEq

/-- One cart line: quantity plus the price snapshot captured at add time
(spec section 3, "CartLine"). -/
structure CartLine where
  quantity : Nat
  price : Price
deriving Repr, DecidableEq

/-- The session cart: an ordered mapping from product id to cart line (the
source keys by `str(product.id)`; decimal rendering of ids is injective, so
Nat keys are kept). -/
abbrev Cart := List (Nat × CartLine)

/-- The line stored for a product id, if any. -/
def Cart.line (c : Cart) (pid : Nat) : Option CartLine :=
  (c.find? (fun e => e.1 == pid)).map Prod.snd

/-- The source's `cart.cart.get(product_id_str, {}).get('quantity', 0)`:
the stored quantity for a product id, 0 when absent. -/
def Cart.quantityOf (c : Cart) (pid : Nat) : Nat :=
  ((Cart.line c pid).map CartLine.quantity).getD 0

/-- Modelled from the spec: `Cart.add` of cart/cart.py (not among the staged
files), per spec section 4.1 — override sets the line's quantity, otherwise
the quantity is added; a created line snapshots the current product price; an
overridden line keeps its original price snapshot (the spec flags this choice
as ambiguous in section 9; src/cart/tests.py only pins the quantity). -/
def Cart.add (c : Cart) (p : Product) (quantity : Nat) (override_quantity : Bool) : Cart :=
  match Cart.line c p.id with
  | none => c ++ [(p.id, ⟨quantity, p.price⟩)]
  | some _ =>
      c.map fun e =>
        if e.1 = p.id then
          (e.1, ⟨if override_quantity then quantity else e.2.quantity + quantity, e.2.price⟩)
        else e

/-- Modelled from the spec: `Cart.remove` of cart/cart.py, per spec
section 4.1 — delete the line if present, no-op otherwise. -/
def Cart.remove (c : Cart) (pid : Nat) : Cart :=
  c.filter (fun e => e.1 != pid)

/-- Modelled from the spec: `Cart.clear` of cart/cart.py, per spec
section 4.1 — empties all lines. -/
def Cart.clear : Cart := []

/-- Modelled from the spec: `Cart.get_total_price` of cart/cart.py, per spec
section 4.1 — the sum of price times quantity over all lines. -/
def Cart.getTotalPrice (c : Cart) : Price :=
  (c.map (fun e => e.2.price * (e.2.quantity : ℚ))).sum

/-- Order row (shop.models.Order). Modelled from the spec: shop/models.py is
not among the staged files; fields per spec sections 3 and 6 (id, nullable
user, contact fields, status, paid). -/
structure Order where
  id : Nat
  user : Option Nat
  first_name : String
  last_name : String
  email : String
  phone : String
  address : String
  status : String
  paid : Bool
deriving Repr, DecidableEq

/-- OrderItem row (shop.models.OrderItem). Modelled from the spec:
shop/models.py is not among the staged files; fields per spec section 6
(orderId, productId, price, quantity). -/
structure OrderItem where
  order_id : Nat
  product_id : Nat
  price : Price
  quantity : Nat
deriving Repr, DecidableEq

/-- The persisted state the embedded operations read and write: the Product,
Order and OrderItem tables plus the id the next saved order receives. -/
structure Db where
  products : List Product
  orders : List Order
  orderItems : List OrderItem
  nextOrderId : Nat
deriving Repr, DecidableEq

/-- Lookup of a product row by id (`Product.objects.get(id=...)` /
`get_object_or_404`); `none` is the not-found outcome. -/
def Db.findProduct (db : Db) (pid : Nat) : Option Product :=
  db.products.find? (fun p => p.id == pid)

/-- The stock column of the product row with the given id. -/
def Db.stockOf (db : Db) (pid : Nat) : Option Nat :=
  (db.findProduct pid).map Product.stock

/-- The session's pending cart addition (`request.session['pending_cart_add']`):
product id, quantity and override flag, as stored by `cart_add` for an
unauthenticated caller. -/
structure PendingIntent where
  product_id : Nat
  quantity : Nat
  override : Bool
deriving Repr, DecidableEq

/-- The per-visitor session state the cart views read and write: the cart
mapping and the optional pending cart addition. -/
structure Session where
  cart : Cart
  pending : Option PendingIntent
deriving Repr, DecidableEq

/-- The login page path (`reverse('accounts:login')` with accounts urls
mounted at /accounts/ by phoneshop/urls.py). -/
def loginUrl : String := "/accounts/login/"

/-- The resume endpoint path (`reverse('cart:complete_pending_add')`; the
same path CustomLoginView.get_success_url hardcodes). -/
def completePendingUrl : String := "/cart/complete-pending/"

/-- The out-of-stock message of cart_add and complete_pending_add. -/
def outOfStockMsg (p : Product) : String :=
  "Sorry, " ++ p.name ++ " is currently out of stock."

/-- The insufficient-stock message of cart_add and complete_pending_add; it
carries the product's current stock count. -/
def insufficientMsg (p : Product) : String :=
  "Sorry, only " ++ toString p.stock ++ " units of " ++ p.name ++ " are available."

/-- Outcome of the add-to-cart request handlers. -/
inductive AddResult where
  | redirectLogin (next : String)
  | notFound
  | invalidForm
  | outOfStock (msg : String)
  | insufficientStock (available : Nat) (msg : String)
  | added
  | noop
deriving Repr, DecidableEq

/-- src/cart/views.py lines 19-66, `cart_add`: for an unauthenticated caller,
store the pending intent (overwriting any prior one) and redirect to login
with the resume endpoint as the next target, without touching the cart;
for an authenticated caller with a valid form, reject when the product's
stock is zero, reject when the effective total (override ? quantity :
current cart quantity + quantity) exceeds the stock, and otherwise commit
via Cart.add. `formValid` stands for `form.is_valid()`; quantity and
override stand for the form's cleaned data (for the unauthenticated branch,
for the raw POST values it stores). -/
def cart_add (db : Db) (s : Session) (authenticated : Bool) (formValid : Bool)
    (product_id : Nat) (quantity : Nat) (override : Bool) : Session × AddResult :=
  if authenticated = false then
    ({ s with pending := some ⟨product_id, quantity, override⟩ },
     .redirectLogin (loginUrl ++ "?next=" ++ completePendingUrl))
  else
    match Db.findProduct db product_id with
    | none => (s, .notFound)
    | some product =>
        if formValid = false then (s, .invalidForm)
        else if product.stock = 0 then (s, .outOfStock (outOfStockMsg product))
        else
          let current_cart_quantity := Cart.quantityOf s.cart product_id
          let total_requested :=
            if override then quantity else current_cart_quantity + quantity
          if product.stock < total_requested then
            (s, .insufficientStock product.stock (insufficientMsg product))
          else
            ({ s with cart := Cart.add s.cart product quantity override }, .added)

/-- src/cart/views.py lines 69-103, `complete_pending_add`: pop the pending
intent from the session first (so it is cleared on every path); with no
pending intent the call is a no-op redirect to the cart view; otherwise
re-run the zero-stock check, the effective-total check and Cart.add with the
stored quantity and override flag. -/
def complete_pending_add (db : Db) (s : Session) : Session × AddResult :=
  match s.pending with
  | none => (s, .noop)
  | some pending =>
      let s' : Session := { s with pending := none }
      match Db.findProduct db pending.product_id with
      | none => (s', .notFound)
      | some product =>
          if product.stock = 0 then (s', .outOfStock (outOfStockMsg product))
          else
            let current_cart_quantity := Cart.quantityOf s'.cart pending.product_id
            let total_requested :=
              if pending.override then pending.quantity
              else current_cart_quantity + pending.quantity
            if product.stock < total_requested then
              (s', .insufficientStock product.stock (insufficientMsg product))
            else
              ({ s' with cart := Cart.add s'.cart product pending.quantity pending.override },
               .added)

/-- src/accounts/views.py lines 26-39, `CustomLoginView.get_success_url`:
the resume endpoint when a pending cart addition exists in the session,
otherwise the request's next parameter when it is a non-empty string
(Python truthiness), otherwise the default landing page. -/
def get_success_url (s : Session) (next_url : Option String) (default_url : String) : String :=
  if s.pending.isSome then completePendingUrl
  else
    match next_url with
    | some n => if n = "" then default_url else n
    | none => default_url

/-- One item of the cart iteration (`Cart.__iter__`): the product freshly
resolved from the database, plus the line's price snapshot and quantity. -/
structure CartItem where
  product : Product
  price : Price
  quantity : Nat
deriving Repr, DecidableEq

/-- Modelled from the spec: the cart iteration of cart/cart.py (not among the
staged files), per spec section 4.1 — a sequence of (product resolved from
the Stock Ledger, price snapshot, quantity) in insertion order. A line whose
product no longer exists is an unhandled edge case flagged in spec section 9;
the theorems below assume every line resolves. -/
def Cart.items (c : Cart) (db : Db) : List CartItem :=
  c.filterMap fun e => (Db.findProduct db e.1).map fun p => ⟨p, e.2.price, e.2.quantity⟩

/-- The contact fields of a submitted (and valid) OrderCreateForm:
first_name, last_name, email, phone, address (src/accounts/forms.py,
OrderCreateForm). -/
structure ContactFields where
  first_name : String
  last_name : String
  email : String
  phone : String
  address : String
deriving Repr, DecidableEq

/-- The Order row `form.save(commit=False)` builds and `order.save()`
persists. Modelled from the spec: shop/models.py is not among the staged
files; status defaults to pending and paid to false per spec section 4.4
("create one Order row with the submitted contact fields and status=pending,
paid=false"), corroborated by src/shop/tests.py (test_order_creation asserts
paid is false by default). -/
def mkOrder (oid : Nat) (user : Option Nat) (f : ContactFields) : Order :=
  ⟨oid, user, f.first_name, f.last_name, f.email, f.phone, f.address, "pending", false⟩

/-- The message order_create records for one violating cart line
(src/cart/views.py lines 137-141): a zero-stock product is reported as out
of stock, any other shortfall as only-N-available. -/
def stockErrorMsg (p : Product) (q : Nat) : String :=
  if p.stock = 0 then p.name ++ " is out of stock."
  else
    "Only " ++ toString p.stock ++ " units of " ++ p.name ++
      " are available (you requested " ++ toString q ++ ")."

/-- The validation loop of order_create (src/cart/views.py lines 134-141):
walk the cart items and collect one message for every line whose quantity
exceeds the product's current stock. -/
def stockErrors : List CartItem → List String
  | [] => []
  | it :: rest =>
      if it.product.stock < it.quantity then
        stockErrorMsg it.product it.quantity :: stockErrors rest
      else stockErrors rest

/-- Decrement the stock column of the product row with the given id
(`item['product'].stock -= item['quantity']; item['product'].save()`). -/
def Db.decStock (db : Db) (pid : Nat) (q : Nat) : Db :=
  { db with
    products := db.products.map fun p => if p.id = pid then { p with stock := p.stock - q } else p }

/-- The creation loop of order_create (src/cart/views.py lines 153-162): for
each cart item, insert one OrderItem row with the line's snapshot price and
quantity, then decrement the referenced product's stock. -/
def commitItems (oid : Nat) : Db → List CartItem → Db
  | db, [] => db
  | db, it :: rest =>
      commitItems oid
        (Db.decStock
          { db with orderItems := db.orderItems ++ [⟨oid, it.product.id, it.price, it.quantity⟩] }
          it.product.id it.quantity)
        rest

/-- Outcome of order_create's POST path with a valid form. -/
inductive OrderResult where
  | created (o : Order)
  | validationFailed (errors : List String)
deriving Repr, DecidableEq

/-- src/cart/views.py lines 128-170, `order_create` (POST path, valid form):
re-validate every cart line against current stock, collecting all violating
lines; when any violation exists, return the aggregated report with the
database and cart untouched; otherwise save one Order row (bound to the
caller when authenticated, contact fields from the form), insert one
OrderItem per cart line, decrement each referenced product's stock, and
clear the cart. `user` is `some` of the caller's id when authenticated. -/
def order_create (db : Db) (cart : Cart) (user : Option Nat) (f : ContactFields) :
    Db × Cart × OrderResult :=
  let items := Cart.items cart db
  let errors := stockErrors items
  if errors = [] then
    let order := mkOrder db.nextOrderId user f
    let db1 : Db := { db with orders := db.orders ++ [order], nextOrderId := db.nextOrderId + 1 }
    (commitItems order.id db1 items, Cart.clear, .created order)
  else (db, cart, .validationFailed errors)

/-- The notification collaborator: sending the confirmation email can fail
with an exception, embedded as `Except` (rendering or SMTP failure). -/
abbrev EmailSender := Order → Except String Unit

/-- src/shop/utils.py lines 14-56, `send_order_confirmation_email`: build and
send the confirmation email for the order; any exception raised inside is
caught and logged and the function returns false, otherwise true. -/
def send_order_confirmation_email (send : EmailSender) (order : Order) : Bool :=
  match send order with
  | Except.ok _ => true
  | Except.error _ => false

/-- order_create including the notification step (src/cart/views.py lines
163-170): on a successful commit the cart is already cleared, then the
confirmation email is attempted for the new order; the third component
records the attempt's boolean outcome (`none` when no order was created).
The order and the database changes do not depend on the email outcome. -/
def order_create_full (db : Db) (cart : Cart) (user : Option Nat) (f : ContactFields)
    (send : EmailSender) : Db × Cart × Option Bool × OrderResult :=
  match order_create db cart user f with
  | (db', cart', OrderResult.created o) =>
      (db', cart', some (send_order_confirmation_email send o), .created o)
  | (db', cart', r) => (db', cart', none, r)

/-- The GET branch of order_create (src/cart/views.py lines 171-189): the
initial contact fields of the form. Modelled in part from the spec: the
user's profile (accounts.models.UserProfile) carries phone and address; a
missing profile raises and the bare account fields are used; a guest gets an
unbound form. -/
structure UserProfile where
  phone : String
  address : String
deriving Repr, DecidableEq

/-- An authenticated account as the prefill logic reads it: bare user fields
plus the optional UserProfile row. -/
structure Account where
  id : Nat
  first_name : String
  last_name : String
  email : String
  profile : Option UserProfile
deriving Repr, DecidableEq

/-- src/cart/views.py lines 171-189: the initial contact fields order_create
offers — profile fields when the caller has a profile, bare account fields
when not (the bare branch leaves phone and address empty), and an empty form
for a guest. -/
def order_form_initial (u : Option Account) : ContactFields :=
  match u with
  | none => ⟨"", "", "", "", ""⟩
  | some a =>
      match a.profile with
      | some profile => ⟨a.first_name, a.last_name, a.email, profile.phone, profile.address⟩
      | none => ⟨a.first_name, a.last_name, a.email, "", ""⟩

/-- The requester of the shop order views: whether authenticated, whether
staff, and the account id. -/
structure Requester where
  authenticated : Bool
  is_staff : Bool
  userId : Nat
deriving Repr, DecidableEq

/-- src/shop/views.py lines 38-44, `order_history`: anonymous and staff
requesters get an empty list; otherwise the orders whose user is the
requester. -/
def order_history (db : Db) (r : Requester) : List Order :=
  if !r.authenticated || r.is_staff then []
  else db.orders.filter fun o => decide (o.user = some r.userId)

/-- Outcome of order_detail: a rendered page (with or without an order) or
the not-found response of `get_object_or_404`. -/
inductive OrderDetailResult where
  | page (order : Option Order)
  | http404
deriving Repr, DecidableEq

/-- src/shop/views.py lines 47-53, `order_detail`: anonymous and staff
requesters get the page with no order; otherwise the order with the given id
owned by the requester, or not-found. -/
def order_detail (db : Db) (r : Requester) (order_id : Nat) : OrderDetailResult :=
  if !r.authenticated || r.is_staff then .page none
  else
    match db.orders.find? (fun o => decide (o.id = order_id ∧ o.user = some r.userId)) with
    | some o => .page (some o)
    | none => .http404

/-- Phase of one order_create execution in the concurrency model: about to
run the validation read, past a passed validation, past the decrement, or
rejected by validation. -/
inductive TxPhase where
  | ready
  | validated
  | committed
  | rejected
deriving Repr, DecidableEq

/-- Two concurrent order_create executions (quantities fixed per execution)
racing on one product's stock counter. The stock is an integer because the
source decrements with unbounded Python integer arithmetic. -/
structure RaceState where
  stock : Int
  a : TxPhase
  b : TxPhase
deriving Repr, DecidableEq

/-- One database operation of one execution, as src/cart/views.py performs
them with no enclosing transaction or row lock: the validation step reads
the current stock and rejects exactly when stock < quantity (line 137); the
commit step blindly decrements (line 161). Each step is individually atomic
(one autocommitted query), but nothing serializes the pair. -/
def stepTx (stock : Int) (q : Int) : TxPhase → Int × TxPhase
  | .ready => (stock, if stock < q then .rejected else .validated)
  | .validated => (stock - q, .committed)
  | ph => (stock, ph)

/-- Advance one of the two executions (true = first) by one database step. -/
def raceStep (qa qb : Int) (who : Bool) (s : RaceState) : RaceState :=
  if who then
    let r := stepTx s.stock qa s.a
    { stock := r.1, a := r.2, b := s.b }
  else
    let r := stepTx s.stock qb s.b
    { stock := r.1, a := s.a, b := r.2 }

/-- Run a schedule (an interleaving of the two executions' steps). -/
def raceRun (qa qb : Int) (sched : List Bool) (s : RaceState) : RaceState :=
  sched.foldl (fun st w => raceStep qa qb w st) s

/-- Sample product with zero stock, for evaluating the theorems. -/
def phoneA : Product := ⟨1, "Alpha Phone", 5, 0, true⟩

/-- Sample product with two units in stock. -/
def phoneB : Product := ⟨2, "Beta Phone", 7, 2, true⟩

/-- Sample product with ten units in stock (the spec's stock=10 scenario). -/
def phoneC : Product := ⟨3, "Gamma Phone", 4, 10, true⟩

/-- Sample contact fields of a valid order form. -/
def sampleContact : ContactFields :=
  ⟨"Ada", "Lovelace", "ada@example.com", "123456", "1 Main St"⟩

/-- Sample database holding the three products and no orders. -/
def dbWitness : Db := ⟨[phoneA, phoneB, phoneC], [], [], 1⟩

/-- Sample cart with two violating lines: one for the zero-stock product,
one requesting five units of the two-unit product. -/
def cartViolating : Cart := [(1, ⟨1, 5⟩), (2, ⟨5, 7⟩)]

/-- Sample cart requesting three of the ten-unit product (spec scenario). -/
def cartValid : Cart := [(3, ⟨3, 4⟩)]

/-- Sample session with an empty cart and no pending intent. -/
def emptySession : Session := ⟨[], none⟩

/-- Sample notification collaborator whose send always raises. -/
def failingSender : EmailSender := fun _ => Except.error "smtp unavailable"

section Lemmas

/-- A found product row carries the id it was looked up by. -/
theorem findProduct_id (db : Db) (pid : Nat) (p : Product)
    (h : Db.findProduct db pid = some p) : p.id = pid := by
  unfold Db.findProduct at h
  simpa using List.find?_some h

/-- Appending a line for an absent product id makes it the line found for
that id. -/
theorem line_append_self (c : Cart) (pid : Nat) (l : CartLine)
    (h : Cart.line c pid = none) : Cart.line (c ++ [(pid, l)]) pid = some l := by
  unfold Cart.line at *
  induction c with
  | nil => simp
  | cons e rest ih =>
    cases hb : (e.1 == pid) with
    | true => simp [List.find?, hb] at h
    | false =>
        simp only [List.cons_append, List.find?, hb] at h ⊢
        exact ih h

/-- Adding a product that has no line yet stores exactly the requested
quantity, whatever the override flag. -/
theorem quantityOf_add_new (c : Cart) (p : Product) (q : Nat) (o : Bool)
    (h : Cart.line c p.id = none) : Cart.quantityOf (Cart.add c p q o) p.id = q := by
  unfold Cart.add
  rw [h]
  unfold Cart.quantityOf
  rw [line_append_self c p.id _ h]
  rfl

/-- complete_pending_add leaves no pending intent behind on any path. -/
theorem complete_pending_add_clears (db : Db) (s : Session) :
    (complete_pending_add db s).1.pending = none := by
  cases hs : s.pending with
  | none => simp [complete_pending_add, hs]
  | some i =>
      cases h : Db.findProduct db i.product_id with
      | none => simp [complete_pending_add, hs, h]
      | some product =>
          by_cases h0 : product.stock = 0
          · simp [complete_pending_add, hs, h, h0]
          · by_cases hlt : product.stock <
                (if i.override then i.quantity
                 else Cart.quantityOf s.cart i.product_id + i.quantity)
            · simp [complete_pending_add, hs, h, h0, hlt]
            · simp [complete_pending_add, hs, h, h0, hlt]

/-- With no pending intent, complete_pending_add is a no-op. -/
theorem complete_pending_add_noop (db : Db) (s : Session) (h : s.pending = none) :
    complete_pending_add db s = (s, .noop) := by
  cases s
  simp_all [complete_pending_add]

/-- The collected messages are exactly one per violating line, in order. -/
theorem stockErrors_eq_filter_map (items : List CartItem) :
    stockErrors items =
      (items.filter fun it => decide (it.product.stock < it.quantity)).map
        (fun it => stockErrorMsg it.product it.quantity) := by
  induction items with
  | nil => rfl
  | cons it rest ih =>
      by_cases h : it.product.stock < it.quantity
      · simp [stockErrors, h, ih]
      · simp [stockErrors, h, ih]

/-- No message is collected exactly when no line violates its stock bound. -/
theorem stockErrors_eq_nil_iff (items : List CartItem) :
    stockErrors items = [] ↔ ∀ it ∈ items, ¬it.product.stock < it.quantity := by
  induction items with
  | nil => simp [stockErrors]
  | cons it rest ih =>
      by_cases h : it.product.stock < it.quantity
      · simp [stockErrors, h]
      · simp [stockErrors, h, ih, not_lt.mp h]

/-- Every violating line contributes its message to the report. -/
theorem mem_stockErrors (items : List CartItem) (it : CartItem) (hm : it ∈ items)
    (hv : it.product.stock < it.quantity) :
    stockErrorMsg it.product it.quantity ∈ stockErrors items := by
  rw [stockErrors_eq_filter_map]
  exact List.mem_map_of_mem _ (List.mem_filter.mpr ⟨hm, decide_eq_true hv⟩)

/-- The creation loop never touches the Order table. -/
theorem commitItems_orders (oid : Nat) (db : Db) (items : List CartItem) :
    (commitItems oid db items).orders = db.orders := by
  induction items generalizing db with
  | nil => rfl
  | cons it rest ih =>
      simp only [commitItems]
      rw [ih]
      rfl

/-- The creation loop never touches the order-id counter. -/
theorem commitItems_nextOrderId (oid : Nat) (db : Db) (items : List CartItem) :
    (commitItems oid db items).nextOrderId = db.nextOrderId := by
  induction items generalizing db with
  | nil => rfl
  | cons it rest ih =>
      simp only [commitItems]
      rw [ih]
      rfl

/-- The creation loop appends exactly one OrderItem row per cart item,
carrying the item's snapshot price and quantity. -/
theorem commitItems_orderItems (oid : Nat) (db : Db) (items : List CartItem) :
    (commitItems oid db items).orderItems =
      db.orderItems ++
        items.map fun it => OrderItem.mk oid it.product.id it.price it.quantity := by
  induction items generalizing db with
  | nil => simp [commitItems]
  | cons it rest ih =>
      simp only [commitItems]
      rw [ih]
      simp [Db.decStock]

/-- Decrementing a product's stock updates the row found for that id. -/
theorem find?_decStock_self (l : List Product) (pid q : Nat) :
    (l.map fun p => if p.id = pid then { p with stock := p.stock - q } else p).find?
        (fun p => p.id == pid) =
      (l.find? fun p => p.id == pid).map fun p => { p with stock := p.stock - q } := by
  induction l with
  | nil => rfl
  | cons p rest ih =>
      rw [List.map_cons]
      simp only [List.find?]
      by_cases h : p.id = pid
      · rw [if_pos h]
        have hb : (p.id == pid) = true := by simpa using h
        rw [hb]
        rfl
      · rw [if_neg h]
        have hb : (p.id == pid) = false := by simpa using h
        rw [hb, ih]

/-- Decrementing one product's stock leaves every other id's row unchanged. -/
theorem find?_decStock_ne (l : List Product) (pid q pid' : Nat) (h : ¬pid' = pid) :
    (l.map fun p => if p.id = pid then { p with stock := p.stock - q } else p).find?
        (fun p => p.id == pid') = l.find? (fun p => p.id == pid') := by
  induction l with
  | nil => rfl
  | cons p rest ih =>
      rw [List.map_cons]
      simp only [List.find?]
      by_cases hp : p.id = pid
      · rw [if_pos hp]
        have hne2 : ¬p.id = pid' := by rw [hp]; exact fun e => h e.symm
        have hb : (p.id == pid') = false := by simpa using hne2
        rw [hb]
        exact ih
      · rw [if_neg hp]
        cases hb : ((p.id : Nat) == pid') with
        | true => rfl
        | false => exact ih

/-- Db-level reading of find?_decStock_self. -/
theorem stockOf_decStock_self (db : Db) (pid q : Nat) :
    Db.stockOf (Db.decStock db pid q) pid = (Db.stockOf db pid).map fun st => st - q := by
  simp only [Db.stockOf, Db.findProduct, Db.decStock]
  rw [find?_decStock_self]
  cases db.products.find? (fun p => p.id == pid) with
  | none => rfl
  | some p => rfl

/-- Db-level reading of find?_decStock_ne. -/
theorem stockOf_decStock_ne (db : Db) (pid q pid' : Nat) (h : ¬pid' = pid) :
    Db.stockOf (Db.decStock db pid q) pid' = Db.stockOf db pid' := by
  simp only [Db.stockOf, Db.findProduct, Db.decStock]
  rw [find?_decStock_ne _ _ _ _ h]

/-- The creation loop leaves the stock of an unreferenced product alone. -/
theorem commitItems_stockOf_notin (oid : Nat) (db : Db) (items : List CartItem) (pid : Nat)
    (h : ∀ it ∈ items, ¬it.product.id = pid) :
    Db.stockOf (commitItems oid db items) pid = Db.stockOf db pid := by
  induction items generalizing db with
  | nil => rfl
  | cons it rest ih =>
      simp only [commitItems]
      rw [ih _ (fun x hx => h x (List.mem_cons_of_mem _ hx))]
      have hne : ¬pid = it.product.id := fun e => h it (List.mem_cons_self _ _) e.symm
      exact stockOf_decStock_ne _ _ _ _ hne

/-- With pairwise-distinct product ids, the creation loop decrements each
referenced product's stock by exactly that item's quantity. -/
theorem commitItems_stockOf_mem (oid : Nat) (db : Db) (items : List CartItem)
    (hnd : (items.map fun it => it.product.id).Nodup) (it : CartItem) (hmem : it ∈ items) :
    Db.stockOf (commitItems oid db items) it.product.id =
      (Db.stockOf db it.product.id).map fun st => st - it.quantity := by
  induction items generalizing db with
  | nil => cases hmem
  | cons hd rest ih =>
      simp only [commitItems]
      rw [List.map_cons, List.nodup_cons] at hnd
      rcases List.mem_cons.mp hmem with heq | hmem'
      · subst heq
        have hrest : ∀ x ∈ rest, ¬x.product.id = it.product.id := by
          intro x hx e
          exact hnd.1 (e ▸ List.mem_map_of_mem _ hx)
        rw [commitItems_stockOf_notin _ _ _ _ hrest]
        rw [stockOf_decStock_self]
        rfl
      · have hne : ¬it.product.id = hd.product.id := by
          intro e
          exact hnd.1 (e ▸ List.mem_map_of_mem (fun x => x.product.id) hmem')
        rw [ih _ hnd.2 hmem']
        rw [stockOf_decStock_ne _ _ _ _ hne]
        rfl

/-- A cart item whose line did not resolve cannot exist; one that did
resolves again to the same product row. -/
theorem items_findProduct (c : Cart) (db : Db) (it : CartItem)
    (h : it ∈ Cart.items c db) : Db.findProduct db it.product.id = some it.product := by
  unfold Cart.items at h
  rw [List.mem_filterMap] at h
  obtain ⟨e, _, hmap⟩ := h
  cases hf : Db.findProduct db e.1 with
  | none => rw [hf] at hmap; cases hmap
  | some p =>
      rw [hf] at hmap
      simp only [Option.map_some'] at hmap
      have hx := Option.some.inj hmap
      subst hx
      have hpid := findProduct_id db e.1 p hf
      show Db.findProduct db p.id = some p
      rw [hpid]
      exact hf

/-- Iteration over a cons cart whose head does not resolve skips the head. -/
theorem items_cons_none (e : Nat × CartLine) (rest : Cart) (db : Db)
    (hf : Db.findProduct db e.1 = none) :
    Cart.items (e :: rest) db = Cart.items rest db := by
  simp [Cart.items, List.filterMap_cons, hf]

/-- Iteration over a cons cart whose head resolves yields the head item. -/
theorem items_cons_some (e : Nat × CartLine) (rest : Cart) (db : Db) (p : Product)
    (hf : Db.findProduct db e.1 = some p) :
    Cart.items (e :: rest) db = ⟨p, e.2.price, e.2.quantity⟩ :: Cart.items rest db := by
  simp [Cart.items, List.filterMap_cons, hf]

/-- The iterated items' product ids form a sublist of the cart's keys. -/
theorem items_ids_sublist (c : Cart) (db : Db) :
    List.Sublist ((Cart.items c db).map fun it => it.product.id) (c.map Prod.fst) := by
  induction c with
  | nil => simp [Cart.items]
  | cons e rest ih =>
      cases hf : Db.findProduct db e.1 with
      | none =>
          rw [items_cons_none e rest db hf, List.map_cons]
          exact List.Sublist.cons _ ih
      | some p =>
          rw [items_cons_some e rest db p hf, List.map_cons, List.map_cons]
          have hpid := findProduct_id db e.1 p hf
          show List.Sublist (p.id :: _) (e.1 :: _)
          rw [hpid]
          exact List.Sublist.cons₂ _ ih

/-- When every line resolves, iteration reproduces each line's snapshot
price and quantity in order. -/
theorem items_price_quantity (c : Cart) (db : Db)
    (h : ∀ e ∈ c, (Db.findProduct db e.1).isSome = true) :
    (Cart.items c db).map (fun it => (it.price, it.quantity)) =
      c.map fun e => (e.2.price, e.2.quantity) := by
  induction c with
  | nil => rfl
  | cons e rest ih =>
      cases hf : Db.findProduct db e.1 with
      | none =>
          have hh := h e (List.mem_cons_self _ _)
          rw [hf] at hh
          cases hh
      | some p =>
          rw [items_cons_some e rest db p hf, List.map_cons, List.map_cons]
          rw [ih (fun x hx => h x (List.mem_cons_of_mem _ hx))]

end Lemmas

/-- Claim C6: an add-to-cart request from an unauthenticated caller stores
the pending intent in the session (overwriting any prior one), redirects to
the login page with the resume endpoint as the callback target, and leaves
the cart completely unchanged. -/
theorem cart_add_unauthenticated_defers (db : Db) (s : Session) (formValid : Bool)
    (product_id quantity : Nat) (override : Bool) :
    cart_add db s false formValid product_id quantity override =
      ({ cart := s.cart, pending := some ⟨product_id, quantity, override⟩ },
       AddResult.redirectLogin (loginUrl ++ "?next=" ++ completePendingUrl)) := rfl

/-- Claim C7: after a successful login, the redirect target is the resume
endpoint when a pending intent exists, overriding any next parameter;
otherwise the next parameter when present (non-empty), otherwise the default
landing page. -/
theorem login_success_url_routing (s : Session) (next_url : Option String)
    (default_url : String) :
    (s.pending.isSome = true →
      get_success_url s next_url default_url = completePendingUrl)
    ∧ (s.pending = none → ∀ n : String, next_url = some n → ¬n = "" →
        get_success_url s next_url default_url = n)
    ∧ (s.pending = none → next_url = none →
        get_success_url s next_url default_url = default_url) := by
  refine ⟨?_, ?_, ?_⟩
  · intro h
    simp [get_success_url, h]
  · intro h n hn hne
    subst hn
    simp [get_success_url, h, hne]
  · intro h hn
    subst hn
    simp [get_success_url, h]

/-- Claim C5: resumePendingAdd reads and clears the pending intent; with
none it is a no-op; with one it runs exactly the validation-and-add sequence
of a direct authenticated add on the stored values; on success from a cart
with no line for the product, the cart holds the originally requested
quantity; and a subsequent resume is a no-op in every case. -/
theorem resume_pending_add_matches_direct (db : Db) (c : Cart) (i : PendingIntent) :
    complete_pending_add db ⟨c, none⟩ = (⟨c, none⟩, .noop)
    ∧ complete_pending_add db ⟨c, some i⟩ =
        cart_add db ⟨c, none⟩ true true i.product_id i.quantity i.override
    ∧ (∀ s : Session, (complete_pending_add db s).1.pending = none)
    ∧ (∀ s : Session,
        complete_pending_add db (complete_pending_add db s).1 =
          ((complete_pending_add db s).1, .noop))
    ∧ (Cart.line c i.product_id = none →
        (complete_pending_add db ⟨c, some i⟩).2 = .added →
        Cart.quantityOf (complete_pending_add db ⟨c, some i⟩).1.cart i.product_id =
          i.quantity) := by
  refine ⟨complete_pending_add_noop db _ rfl, ?_, complete_pending_add_clears db, ?_, ?_⟩
  · cases h : Db.findProduct db i.product_id with
    | none => simp [complete_pending_add, cart_add, h]
    | some product =>
        by_cases h0 : product.stock = 0
        · simp [complete_pending_add, cart_add, h, h0]
        · by_cases hlt : product.stock <
              (if i.override then i.quantity
               else Cart.quantityOf c i.product_id + i.quantity)
          · simp [complete_pending_add, cart_add, h, h0, hlt]
          · simp [complete_pending_add, cart_add, h, h0, hlt]
  · intro s
    exact complete_pending_add_noop db _ (complete_pending_add_clears db s)
  · intro hline hres
    cases h : Db.findProduct db i.product_id with
    | none => simp [complete_pending_add, h] at hres
    | some product =>
        have hpid := findProduct_id db i.product_id product h
        by_cases h0 : product.stock = 0
        · simp [complete_pending_add, h, h0] at hres
        · by_cases hlt : product.stock <
              (if i.override then i.quantity
               else Cart.quantityOf c i.product_id + i.quantity)
          · simp [complete_pending_add, h, h0, hlt] at hres
          · have hline' : Cart.line c product.id = none := by rw [hpid]; exact hline
            simp only [complete_pending_add, h, h0, hlt]
            rw [← hpid]
            exact quantityOf_add_new c product i.quantity i.override hline'

/-- Claim C4: an authenticated add with a valid form is rejected without
mutation when the product's stock is zero; rejected without mutation, with a
message stating the available count, when the effective total (override ?
requested : current + requested) exceeds the stock; and otherwise committed
via Cart.add. -/
theorem cart_add_stock_validation (db : Db) (s : Session) (product_id quantity : Nat)
    (override : Bool) (product : Product) (total : Nat)
    (hp : Db.findProduct db product_id = some product)
    (ht : total = if override then quantity
                  else Cart.quantityOf s.cart product_id + quantity) :
    (product.stock = 0 →
      cart_add db s true true product_id quantity override =
        (s, .outOfStock (outOfStockMsg product)))
    ∧ (¬product.stock = 0 → product.stock < total →
        cart_add db s true true product_id quantity override =
          (s, .insufficientStock product.stock (insufficientMsg product)))
    ∧ (¬product.stock = 0 → total ≤ product.stock →
        cart_add db s true true product_id quantity override =
          ({ s with cart := Cart.add s.cart product quantity override }, .added))
    ∧ insufficientMsg product =
        "Sorry, only " ++ toString product.stock ++ " units of " ++ product.name ++
          " are available." := by
  subst ht
  refine ⟨?_, ?_, ?_, rfl⟩
  · intro h0
    simp [cart_add, hp, h0]
  · intro h0 hlt
    simp [cart_add, hp, h0, hlt]
  · intro h0 hle
    simp [cart_add, hp, h0, not_lt.mpr hle]

/-- Witness for claim C4: in the sample database, adding one unit of the
zero-stock product is rejected as out of stock. -/
theorem cart_add_stock_validation_witness :
    cart_add dbWitness emptySession true true 1 1 false =
      (emptySession, AddResult.outOfStock (outOfStockMsg phoneA)) :=
  (cart_add_stock_validation dbWitness emptySession 1 1 false phoneA 1
    (by rfl) (by rfl)).1 (by rfl)

/-- Claim C10: the order views show data only to an authenticated non-staff
requester, and only that requester's own orders; anonymous and staff
requesters get an empty list or no order, and an order of another user is
not found. -/
theorem order_views_owner_only (db : Db) (r : Requester) (order_id : Nat) :
    (∀ o ∈ order_history db r,
        r.authenticated = true ∧ r.is_staff = false ∧ o.user = some r.userId ∧
          o ∈ db.orders)
    ∧ (∀ o : Order, order_detail db r order_id = OrderDetailResult.page (some o) →
        r.authenticated = true ∧ r.is_staff = false ∧ o.id = order_id ∧
          o.user = some r.userId ∧ o ∈ db.orders)
    ∧ ((r.authenticated = false ∨ r.is_staff = true) →
        order_history db r = [] ∧ order_detail db r order_id = .page none)
    ∧ (r.authenticated = true → r.is_staff = false →
        (∀ o ∈ db.orders, o.id = order_id → ¬o.user = some r.userId) →
        order_detail db r order_id = OrderDetailResult.http404) := by
  refine ⟨?_, ?_, ?_, ?_⟩
  · intro o ho
    unfold order_history at ho
    split at ho
    · cases ho
    · rename_i hg
      have ha : r.authenticated = true := by
        cases h1 : r.authenticated
        · exact absurd (by simp [h1]) hg
        · rfl
      have hs : r.is_staff = false := by
        cases h2 : r.is_staff
        · rfl
        · exact absurd (by simp [h2]) hg
      have hm := List.mem_filter.mp ho
      exact ⟨ha, hs, of_decide_eq_true hm.2, hm.1⟩
  · intro o ho
    unfold order_detail at ho
    split at ho
    · simp at ho
    · rename_i hg
      have ha : r.authenticated = true := by
        cases h1 : r.authenticated
        · exact absurd (by simp [h1]) hg
        · rfl
      have hs : r.is_staff = false := by
        cases h2 : r.is_staff
        · rfl
        · exact absurd (by simp [h2]) hg
      split at ho
      · rename_i o' hf
        have hps := List.find?_some hf
        have hp := of_decide_eq_true hps
        have hmem := List.mem_of_find?_eq_some hf
        have : o' = o := by simpa using ho
        subst this
        exact ⟨ha, hs, hp.1, hp.2, hmem⟩
      · cases ho
  · intro hg
    have hgb : (!r.authenticated || r.is_staff) = true := by
      rcases hg with h | h <;> simp [h]
    exact ⟨by simp [order_history, hgb], by simp [order_detail, hgb]⟩
  · intro ha hs hnone
    unfold order_detail
    have hgb : (!r.authenticated || r.is_staff) = false := by simp [ha, hs]
    rw [if_neg (by simp [hgb])]
    have hf : db.orders.find?
        (fun o => decide (o.id = order_id ∧ o.user = some r.userId)) = none := by
      rw [List.find?_eq_none]
      intro o ho hdec
      have hp := of_decide_eq_true hdec
      exact hnone o ho hp.1 hp.2
    rw [hf]

/-- Claim C1: when any cart line's quantity exceeds its product's current
stock, order_create rejects the whole operation: the report carries one
message per violating line (zero-stock lines worded differently from
only-N-available lines), and the database (orders, order items, stock) and
the cart are left untouched. -/
theorem order_create_rejects_all_violations (db : Db) (cart : Cart) (user : Option Nat)
    (f : ContactFields)
    (h : ∃ it ∈ Cart.items cart db, it.product.stock < it.quantity) :
    order_create db cart user f =
      (db, cart, .validationFailed (stockErrors (Cart.items cart db)))
    ∧ stockErrors (Cart.items cart db) =
        ((Cart.items cart db).filter fun it =>
            decide (it.product.stock < it.quantity)).map
          (fun it => stockErrorMsg it.product it.quantity)
    ∧ (∀ it ∈ Cart.items cart db, it.product.stock < it.quantity →
        stockErrorMsg it.product it.quantity ∈ stockErrors (Cart.items cart db))
    ∧ (∀ p : Product, ∀ q : Nat, p.stock = 0 →
        stockErrorMsg p q = p.name ++ " is out of stock.")
    ∧ (∀ p : Product, ∀ q : Nat, ¬p.stock = 0 →
        stockErrorMsg p q =
          "Only " ++ toString p.stock ++ " units of " ++ p.name ++
            " are available (you requested " ++ toString q ++ ").") := by
  obtain ⟨it0, hm0, hv0⟩ := h
  have hne : ¬stockErrors (Cart.items cart db) = [] := by
    rw [stockErrors_eq_nil_iff]
    intro hall
    exact hall it0 hm0 hv0
  refine ⟨?_, stockErrors_eq_filter_map _,
    fun it hm hv => mem_stockErrors _ it hm hv,
    fun p q h0 => by simp [stockErrorMsg, h0],
    fun p q h0 => by simp [stockErrorMsg, h0]⟩
  simp [order_create, hne]

/-- Witness for claim C1: the sample cart holds a zero-stock line and a
five-of-two line; order_create rejects with both messages and changes
nothing. -/
theorem order_create_rejects_all_violations_witness :
    order_create dbWitness cartViolating none sampleContact =
      (dbWitness, cartViolating,
       OrderResult.validationFailed
         ["Alpha Phone is out of stock.",
          "Only 2 units of Beta Phone are available (you requested 5)."]) := by
  have h := order_create_rejects_all_violations dbWitness cartViolating none sampleContact
    (by decide)
  rw [h.1]
  rfl

/-- Claim C2: a cart whose lines all fit current stock is committed: one
Order row with the submitted contact fields, status pending and paid false;
one OrderItem per line with the snapshot price and quantity; each referenced
product's stock decremented by the line's quantity; and the cart left
empty. -/
theorem order_create_commits_valid_cart (db : Db) (cart : Cart) (user : Option Nat)
    (f : ContactFields)
    (hne : ¬cart = [])
    (hnd : (cart.map Prod.fst).Nodup)
    (hres : ∀ e ∈ cart, (Db.findProduct db e.1).isSome = true)
    (hok : ∀ it ∈ Cart.items cart db, it.quantity ≤ it.product.stock) :
    ∃ db' : Db,
      order_create db cart user f = (db', [], .created (mkOrder db.nextOrderId user f))
      ∧ (mkOrder db.nextOrderId user f).status = "pending"
      ∧ (mkOrder db.nextOrderId user f).paid = false
      ∧ (mkOrder db.nextOrderId user f).user = user
      ∧ (mkOrder db.nextOrderId user f).first_name = f.first_name
      ∧ (mkOrder db.nextOrderId user f).last_name = f.last_name
      ∧ (mkOrder db.nextOrderId user f).email = f.email
      ∧ (mkOrder db.nextOrderId user f).phone = f.phone
      ∧ (mkOrder db.nextOrderId user f).address = f.address
      ∧ db'.orders = db.orders ++ [mkOrder db.nextOrderId user f]
      ∧ db'.orderItems =
          db.orderItems ++ (Cart.items cart db).map
            (fun it => OrderItem.mk db.nextOrderId it.product.id it.price it.quantity)
      ∧ (Cart.items cart db).map (fun it => (it.price, it.quantity)) =
          cart.map (fun e => (e.2.price, e.2.quantity))
      ∧ (Cart.items cart db).length = cart.length
      ∧ (∀ it ∈ Cart.items cart db,
          Db.stockOf db' it.product.id = some (it.product.stock - it.quantity)) := by
  have herr : stockErrors (Cart.items cart db) = [] :=
    (stockErrors_eq_nil_iff _).mpr fun it hm => not_lt.mpr (hok it hm)
  refine ⟨commitItems db.nextOrderId
      { db with
        orders := db.orders ++ [mkOrder db.nextOrderId user f]
        nextOrderId := db.nextOrderId + 1 } (Cart.items cart db),
    ?_, rfl, rfl, rfl, rfl, rfl, rfl, rfl, rfl, ?_, ?_,
    items_price_quantity cart db hres, ?_, ?_⟩
  · simp [order_create, herr, Cart.clear]
    rfl
  · rw [commitItems_orders]
  · rw [commitItems_orderItems]
  · have hlen := congrArg List.length (items_price_quantity cart db hres)
    simpa using hlen
  · intro it hm
    have hidnd : ((Cart.items cart db).map fun it => it.product.id).Nodup :=
      List.Nodup.sublist (items_ids_sublist cart db) hnd
    rw [commitItems_stockOf_mem _ _ _ hidnd it hm]
    have hf := items_findProduct cart db it hm
    show (Db.stockOf db it.product.id).map (fun st => st - it.quantity) =
      some (it.product.stock - it.quantity)
    unfold Db.stockOf
    rw [hf]
    rfl

/-- Witness for claim C2: the spec's scenario — stock ten, one line of
quantity three; the order is created and the stock ends at seven. -/
theorem order_create_commits_valid_cart_witness :
    ∃ db' : Db,
      order_create dbWitness cartValid (some 9) sampleContact =
        (db', [], .created (mkOrder dbWitness.nextOrderId (some 9) sampleContact))
      ∧ (mkOrder dbWitness.nextOrderId (some 9) sampleContact).status = "pending"
      ∧ (mkOrder dbWitness.nextOrderId (some 9) sampleContact).paid = false
      ∧ (mkOrder dbWitness.nextOrderId (some 9) sampleContact).user = some 9
      ∧ (mkOrder dbWitness.nextOrderId (some 9) sampleContact).first_name =
          sampleContact.first_name
      ∧ (mkOrder dbWitness.nextOrderId (some 9) sampleContact).last_name =
          sampleContact.last_name
      ∧ (mkOrder dbWitness.nextOrderId (some 9) sampleContact).email =
          sampleContact.email
      ∧ (mkOrder dbWitness.nextOrderId (some 9) sampleContact).phone =
          sampleContact.phone
      ∧ (mkOrder dbWitness.nextOrderId (some 9) sampleContact).address =
          sampleContact.address
      ∧ db'.orders = dbWitness.orders ++ [mkOrder dbWitness.nextOrderId (some 9) sampleContact]
      ∧ db'.orderItems =
          dbWitness.orderItems ++ (Cart.items cartValid dbWitness).map
            (fun it => OrderItem.mk dbWitness.nextOrderId it.product.id it.price it.quantity)
      ∧ (Cart.items cartValid dbWitness).map (fun it => (it.price, it.quantity)) =
          cartValid.map (fun e => (e.2.price, e.2.quantity))
      ∧ (Cart.items cartValid dbWitness).length = cartValid.length
      ∧ (∀ it ∈ Cart.items cartValid dbWitness,
          Db.stockOf db' it.product.id = some (it.product.stock - it.quantity)) :=
  order_create_commits_valid_cart dbWitness cartValid (some 9) sampleContact
    (by decide) (by decide) (by decide) (by decide)

/-- Claim C9: with a valid form, an empty cart still produces an order with
zero items; the created order's user is the caller when authenticated and
null for a guest; and the GET form prefills from the profile when one
exists, from the bare account fields otherwise, and is empty for a guest. -/
theorem order_create_empty_cart_and_user_binding (db : Db) (user : Option Nat)
    (f : ContactFields) :
    order_create db [] user f =
      ({ db with
         orders := db.orders ++ [mkOrder db.nextOrderId user f]
         nextOrderId := db.nextOrderId + 1 }, [],
       .created (mkOrder db.nextOrderId user f))
    ∧ (order_create db [] user f).1.orderItems = db.orderItems
    ∧ (∀ cart : Cart, ∀ db' : Db, ∀ c' : Cart, ∀ o : Order,
        order_create db cart user f = (db', c', OrderResult.created o) → o.user = user)
    ∧ order_form_initial none = ⟨"", "", "", "", ""⟩
    ∧ (∀ a : Account, a.profile = none →
        order_form_initial (some a) = ⟨a.first_name, a.last_name, a.email, "", ""⟩)
    ∧ (∀ a : Account, ∀ pr : UserProfile, a.profile = some pr →
        order_form_initial (some a) =
          ⟨a.first_name, a.last_name, a.email, pr.phone, pr.address⟩) := by
  refine ⟨rfl, rfl, ?_, rfl, ?_, ?_⟩
  · intro cart db' c' o h
    by_cases he : stockErrors (Cart.items cart db) = []
    · simp [order_create, he] at h
      rw [← h.2.2]
      rfl
    · simp [order_create, he] at h
  · intro a ha
    simp [order_form_initial, ha]
  · intro a pr ha
    simp [order_form_initial, ha]

/-- Claim C8: after a successful commit the cart is cleared and the
notification collaborator is invoked with the new order; a failure inside
the send is caught, the function returns false instead of raising, and the
committed order and database changes are unaffected — order_create still
returns the created order. -/
theorem order_notification_failure_isolated (db : Db) (cart : Cart) (user : Option Nat)
    (f : ContactFields) (send : EmailSender) (db' : Db) (c' : Cart) (o : Order)
    (h : order_create db cart user f = (db', c', OrderResult.created o)) :
    c' = []
    ∧ order_create_full db cart user f send =
        (db', [], some (send_order_confirmation_email send o), OrderResult.created o)
    ∧ (∀ e : String, send o = Except.error e →
        send_order_confirmation_email send o = false)
    ∧ (∀ u : Unit, send o = Except.ok u →
        send_order_confirmation_email send o = true) := by
  have hc : c' = [] := by
    by_cases he : stockErrors (Cart.items cart db) = []
    · simp [order_create, he, Cart.clear] at h
      exact h.2.1
    · simp [order_create, he] at h
  subst hc
  refine ⟨rfl, ?_, ?_, ?_⟩
  · unfold order_create_full
    rw [h]
  · intro e hs
    simp [send_order_confirmation_email, hs]
  · intro u hs
    simp [send_order_confirmation_email, hs]

/-- Witness for claim C8: committing the empty cart with a sender that
always raises still creates the order; the send reports false and nothing
is rolled back. -/
theorem order_notification_failure_isolated_witness :
    order_create_full dbWitness [] none sampleContact failingSender =
      ({ dbWitness with
          orders := dbWitness.orders ++ [mkOrder dbWitness.nextOrderId none sampleContact],
          nextOrderId := dbWitness.nextOrderId + 1 }, [],
       some (send_order_confirmation_email failingSender
          (mkOrder dbWitness.nextOrderId none sampleContact)),
       OrderResult.created (mkOrder dbWitness.nextOrderId none sampleContact))
    ∧ send_order_confirmation_email failingSender
        (mkOrder dbWitness.nextOrderId none sampleContact) = false := by
  have h := order_notification_failure_isolated dbWitness [] none sampleContact failingSender
    ({ dbWitness with
        orders := dbWitness.orders ++ [mkOrder dbWitness.nextOrderId none sampleContact],
        nextOrderId := dbWitness.nextOrderId + 1 }) []
    (mkOrder dbWitness.nextOrderId none sampleContact) rfl
  exact ⟨h.2.1, h.2.2.1 "smtp unavailable" rfl⟩

/-- Claim C3 (evaluation at the failing input): with one unit in stock and
two concurrent createOrder executions each committing one unit, the schedule
in which both validation reads precede both decrements drives the stock to
minus one — the source serializes nothing, so the claimed invariant fails. -/
theorem stock_race_goes_negative :
    raceRun 1 1 [true, false, true, false] ⟨1, TxPhase.ready, TxPhase.ready⟩ =
      ⟨-1, TxPhase.committed, TxPhase.committed⟩
    ∧ (raceRun 1 1 [true, false, true, false] ⟨1, TxPhase.ready, TxPhase.ready⟩).stock < 0 := by
  constructor
  · rfl
  · decide

end PhoneShop
